import Mathlib

/-!
Shallow embedding of the dashboard backend (src/main.py).

The only nontrivial logic is the `team_dashboard` endpoint, which
deterministically synthesizes 8 sprint records and aggregate KPIs from
the query parameters plus the current date.  Python floats are modelled
as exact rationals; every numeric value produced by the endpoint is a
small integer or a quotient of small integers, and none of them lies
within a double-precision ulp of a decimal halfway point, so exact
rational arithmetic with banker's rounding agrees with the CPython
computation on every field.  The wall-clock date `today` is an explicit
integer parameter (a day number); it only enters the `start`/`end` date
fields.  Query validation of `grouping` (the FastAPI regex pattern) is
modelled by returning `none` on a rejected request.
-/

attribute [local semireducible] Rat.mul Rat.inv Rat.add Rat.sub Rat.ofScientific

/-- Round a rational to the nearest integer, ties to even
(the tie-breaking rule of Python `round`). -/
def bankersRound (q : ℚ) : ℤ :=
  if q - (q.floor : ℚ) < 1/2 then q.floor
  else if 1/2 < q - (q.floor : ℚ) then q.floor + 1
  else if q.floor % 2 = 0 then q.floor else q.floor + 1

/-- Python `round(q, n)` for nonnegative `n`. -/
def pyRound (q : ℚ) (n : ℕ) : ℚ :=
  (bankersRound (q * 10 ^ n) : ℚ) / 10 ^ n

/-- `class KPI(BaseModel)` of src/main.py. -/
structure KPI where
  label : String
  value : ℚ
  delta : Option ℚ
  help : Option String
deriving DecidableEq

/-- `class VelocityPoint(BaseModel)` of src/main.py; `end` is a Lean
keyword, hence `end_`.  Dates are day numbers. -/
structure VelocityPoint where
  key : String
  start : ℤ
  end_ : ℤ
  committed : ℚ
  completed : ℚ
deriving DecidableEq

/-- `class CommitmentPoint(BaseModel)` of src/main.py. -/
structure CommitmentPoint where
  sprint : String
  committed : ℚ
  completed : ℚ
  rollover : ℚ
  percent : ℚ
deriving DecidableEq

/-- `class RolloverPoint(BaseModel)` of src/main.py. -/
structure RolloverPoint where
  sprint : String
  percent : ℚ
  committed : ℚ
  rolled : ℚ
deriving DecidableEq

/-- `class ScopeSummary(BaseModel)` of src/main.py. -/
structure ScopeSummary where
  avg_added : ℚ
  avg_removed : ℚ
  avg_net_percent : ℚ
deriving DecidableEq

/-- `class SprintRow(BaseModel)` of src/main.py. -/
structure SprintRow where
  sprint : String
  start : ℤ
  end_ : ℤ
  committed : ℚ
  completed : ℚ
  completion_percent : ℚ
  rollover_points : ℚ
  rollover_percent : ℚ
  dor_compliance_percent : ℚ
  bugs_created : ℕ
  items_reopened : ℕ
deriving DecidableEq

/-- `class TeamDashboardResponse(BaseModel)` of src/main.py. -/
structure TeamDashboardResponse where
  team_name : String
  kpis : List KPI
  velocity : List VelocityPoint
  commitment_vs_completion : List CommitmentPoint
  rollover_trend : List RolloverPoint
  scope_change : ScopeSummary
  sprint_rows : List SprintRow
deriving DecidableEq

/-- `sprint_count = 8`. -/
def sprint_count : ℕ := 8

/-- `base_points = 30 if include_done_only else 35`. -/
def basePoints (include_done_only : Bool) : ℚ :=
  if include_done_only then 30 else 35

/-- `sprint_name = f"Sprint {idx}"`. -/
def sprintName (idx : ℕ) : String := "Sprint " ++ toString idx

/-- `start = today - timedelta(weeks=(sprint_count - i) * 2)`, in days. -/
def startAt (today : ℤ) (i : ℕ) : ℤ := today - ((sprint_count - i) * 14 : ℕ)

/-- `end = start + timedelta(days=13)`. -/
def endAt (today : ℤ) (i : ℕ) : ℤ := startAt today i + 13

/-- `committed = base_points + (i % 3) * 5 + 5`. -/
def committedAt (base : ℚ) (i : ℕ) : ℚ := base + ((i % 3 : ℕ) : ℚ) * 5 + 5

/-- `completed = max(0.0, committed - (i % 4) * 4 + ((i % 2) * 2))`, then
`completed = round(min(committed + 3, completed), 1)`. -/
def completedAt (base : ℚ) (i : ℕ) : ℚ :=
  pyRound (min (committedAt base i + 3)
    (max 0 (committedAt base i - ((i % 4 : ℕ) : ℚ) * 4 + ((i % 2 : ℕ) : ℚ) * 2))) 1

/-- `rollover = max(0.0, round(committed - completed, 1))`. -/
def rolloverAt (base : ℚ) (i : ℕ) : ℚ :=
  max 0 (pyRound (committedAt base i - completedAt base i) 1)

/-- `percent = round(100.0 * (completed / committed) if committed else 0, 1)`. -/
def percentAt (base : ℚ) (i : ℕ) : ℚ :=
  pyRound (if committedAt base i = 0 then 0
    else 100 * (completedAt base i / committedAt base i)) 1

/-- `roll_percent = round(100.0 * (rollover / committed) if committed else 0, 1)`. -/
def rollPercentAt (base : ℚ) (i : ℕ) : ℚ :=
  pyRound (if committedAt base i = 0 then 0
    else 100 * (rolloverAt base i / committedAt base i)) 1

/-- `dor = round(80 + (i % 5) * 3 - (i % 2), 1)`. -/
def dorAt (i : ℕ) : ℚ :=
  pyRound (80 + ((i % 5 : ℕ) : ℚ) * 3 - ((i % 2 : ℕ) : ℚ)) 1

/-- `bugs_created = 5 + (i % 4) * 2`. -/
def bugsCreatedAt (i : ℕ) : ℕ := 5 + (i % 4) * 2

/-- `reopened = (i % 3)`. -/
def reopenedAt (i : ℕ) : ℕ := i % 3

/-- The `VelocityPoint` appended at loop offset `i`. -/
def velocityPointAt (base : ℚ) (today : ℤ) (i : ℕ) : VelocityPoint :=
  VelocityPoint.mk (sprintName (sprint_count - i)) (startAt today i) (endAt today i)
    (committedAt base i) (completedAt base i)

/-- The `CommitmentPoint` appended at loop offset `i`. -/
def commitmentPointAt (base : ℚ) (i : ℕ) : CommitmentPoint :=
  CommitmentPoint.mk (sprintName (sprint_count - i)) (committedAt base i)
    (completedAt base i) (rolloverAt base i) (percentAt base i)

/-- The `RolloverPoint` appended at loop offset `i`. -/
def rolloverPointAt (base : ℚ) (i : ℕ) : RolloverPoint :=
  RolloverPoint.mk (sprintName (sprint_count - i)) (rollPercentAt base i)
    (committedAt base i) (rolloverAt base i)

/-- The `SprintRow` appended at loop offset `i`. -/
def rowAt (base : ℚ) (today : ℤ) (i : ℕ) : SprintRow :=
  SprintRow.mk (sprintName (sprint_count - i)) (startAt today i) (endAt today i)
    (committedAt base i) (completedAt base i) (percentAt base i) (rolloverAt base i)
    (rollPercentAt base i) (dorAt i) (bugsCreatedAt i) (reopenedAt i)

/-- The `velocity` list after the generation loop (ascending offset order). -/
def velocityGen (base : ℚ) (today : ℤ) : List VelocityPoint :=
  (List.range sprint_count).map (velocityPointAt base today)

/-- The `commit_vs` list after the generation loop. -/
def commitVsGen (base : ℚ) : List CommitmentPoint :=
  (List.range sprint_count).map (commitmentPointAt base)

/-- The `rollover_points` list after the generation loop. -/
def rolloverTrendGen (base : ℚ) : List RolloverPoint :=
  (List.range sprint_count).map (rolloverPointAt base)

/-- The `rows` list after the generation loop. -/
def rowsGen (base : ℚ) (today : ℤ) : List SprintRow :=
  (List.range sprint_count).map (rowAt base today)

/-- The response body built by `team_dashboard` once request validation has
passed: generation loop, KPI aggregation, hardcoded scope summary, and the
final `reversed` of each series. -/
def synthesize (team_name : String) (include_done_only : Bool) (today : ℤ) :
    TeamDashboardResponse :=
  let base := basePoints include_done_only
  let velocity := velocityGen base today
  let commit_vs := commitVsGen base
  let rollover_points := rolloverTrendGen base
  let rows := rowsGen base today
  let avg_velocity := pyRound ((velocity.map (fun v => v.completed)).sum / (velocity.length : ℚ)) 1
  let avg_throughput := pyRound (((velocity.map (fun _ => (1 : ℚ))).sum * 10) / (velocity.length : ℚ)) 1
  let commitment_completion := pyRound ((commit_vs.map (fun c => c.completed)).sum / (commit_vs.map (fun c => c.committed)).sum * 100) 1
  let rollover_rate := pyRound ((commit_vs.map (fun c => c.rollover)).sum / (commit_vs.map (fun c => c.committed)).sum * 100) 1
  let dor_compliance := pyRound ((rows.map (fun r => r.dor_compliance_percent)).sum / (rows.length : ℚ)) 1
  let bug_ratio := pyRound ((rows.map (fun r => (r.bugs_created : ℚ))).sum / ((max 1 (rows.length * 12) : ℕ) : ℚ)) 2
  let kpis := [
    KPI.mk "Velocity" avg_velocity (some 1.2) (some "Average story points completed per sprint in the selected range."),
    KPI.mk "Throughput" avg_throughput (some (-0.5)) (some "Number of items completed per sprint in the selected range."),
    KPI.mk "Commitment completion %" commitment_completion (some 2.1) (some "Completed points divided by points committed at sprint start."),
    KPI.mk "Rollover rate %" rollover_rate (some (-1.4)) (some "Rolled-over points divided by committed points."),
    KPI.mk "DoR compliance %" dor_compliance (some 0.8) (some "Percentage of items that met Definition of Ready before sprint start."),
    KPI.mk "Bug ratio" bug_ratio (some (-0.1)) (some "Number of bugs divided by number of stories completed.")]
  let scope := ScopeSummary.mk (pyRound 3.2 1) (pyRound 1.4 1) (pyRound 6.5 1)
  TeamDashboardResponse.mk team_name kpis velocity.reverse commit_vs.reverse
    rollover_points.reverse scope rows.reverse

/-- The FastAPI validation `pattern="^(By sprint|By week|By month)$"` on
the `grouping` query parameter. -/
def groupingValid (grouping : String) : Bool :=
  grouping == "By sprint" || grouping == "By week" || grouping == "By month"

/-- The `team_dashboard` endpoint: `none` models the request-validation
rejection of a malformed `grouping`; otherwise the synthesized response.
`team_id` and `item_types` are accepted but never read, as in the source. -/
def team_dashboard (team_id team_name grouping : String) (include_done_only : Bool)
    (item_types : List String) (today : ℤ) : Option TeamDashboardResponse :=
  if groupingValid grouping then
    some (synthesize team_name include_done_only today)
  else none

/-! ### Evaluation helpers

Projection lemmas that strip the (date-carrying) record constructors down
to the date-free field values, and expansions of the generated lists, so
that per-record goals become closed rational computations. -/

theorem rowAt_sprint (b : ℚ) (t : ℤ) (i : ℕ) : (rowAt b t i).sprint = sprintName (sprint_count - i) := rfl

theorem rowAt_committed (b : ℚ) (t : ℤ) (i : ℕ) : (rowAt b t i).committed = committedAt b i := rfl

theorem rowAt_completed (b : ℚ) (t : ℤ) (i : ℕ) : (rowAt b t i).completed = completedAt b i := rfl

theorem rowAt_completion_percent (b : ℚ) (t : ℤ) (i : ℕ) : (rowAt b t i).completion_percent = percentAt b i := rfl

theorem rowAt_rollover_points (b : ℚ) (t : ℤ) (i : ℕ) : (rowAt b t i).rollover_points = rolloverAt b i := rfl

theorem rowAt_rollover_percent (b : ℚ) (t : ℤ) (i : ℕ) : (rowAt b t i).rollover_percent = rollPercentAt b i := rfl

theorem rowAt_dor (b : ℚ) (t : ℤ) (i : ℕ) : (rowAt b t i).dor_compliance_percent = dorAt i := rfl

theorem rowAt_bugs (b : ℚ) (t : ℤ) (i : ℕ) : (rowAt b t i).bugs_created = bugsCreatedAt i := rfl

theorem velocityPointAt_completed (b : ℚ) (t : ℤ) (i : ℕ) : (velocityPointAt b t i).completed = completedAt b i := rfl

theorem velocityPointAt_committed (b : ℚ) (t : ℤ) (i : ℕ) : (velocityPointAt b t i).committed = committedAt b i := rfl

theorem range_eight : List.range sprint_count = [0, 1, 2, 3, 4, 5, 6, 7] := rfl

theorem rowsGen_expand (b : ℚ) (t : ℤ) :
    rowsGen b t = [rowAt b t 0, rowAt b t 1, rowAt b t 2, rowAt b t 3,
      rowAt b t 4, rowAt b t 5, rowAt b t 6, rowAt b t 7] := rfl

theorem velocityGen_expand (b : ℚ) (t : ℤ) :
    velocityGen b t = [velocityPointAt b t 0, velocityPointAt b t 1, velocityPointAt b t 2,
      velocityPointAt b t 3, velocityPointAt b t 4, velocityPointAt b t 5,
      velocityPointAt b t 6, velocityPointAt b t 7] := rfl

theorem basePoints_false : basePoints false = 35 := rfl

theorem basePoints_true : basePoints true = 30 := rfl

theorem synthesize_team_name (tn : String) (d : Bool) (t : ℤ) : (synthesize tn d t).team_name = tn := by
  cases d <;> rfl

theorem synthesize_rows (tn : String) (d : Bool) (t : ℤ) :
    (synthesize tn d t).sprint_rows = (rowsGen (basePoints d) t).reverse := by
  cases d <;> rfl

theorem team_dashboard_eq {tid tn g : String} {d : Bool} {it : List String} {t : ℤ}
    {r : TeamDashboardResponse} (h : team_dashboard tid tn g d it t = some r) :
    r = synthesize tn d t := by
  unfold team_dashboard at h
  split at h
  · exact (Option.some.inj h).symm
  · exact Option.noConfusion h

theorem synthesize_kpis_false (tn : String) (t : ℤ) :
    (synthesize tn false t).kpis =
      [KPI.mk "Velocity" (197/5) (some 1.2) (some "Average story points completed per sprint in the selected range."),
       KPI.mk "Throughput" 10 (some (-0.5)) (some "Number of items completed per sprint in the selected range."),
       KPI.mk "Commitment completion %" (887/10) (some 2.1) (some "Completed points divided by points committed at sprint start."),
       KPI.mk "Rollover rate %" (113/10) (some (-1.4)) (some "Rolled-over points divided by committed points."),
       KPI.mk "DoR compliance %" (422/5) (some 0.8) (some "Percentage of items that met Definition of Ready before sprint start."),
       KPI.mk "Bug ratio" (67/100) (some (-0.1)) (some "Number of bugs divided by number of stories completed.")] := by
  simp only [synthesize, basePoints_false, velocityGen_expand, rowsGen_expand,
    List.map_cons, List.map_nil, List.sum_cons, List.sum_nil, List.length_cons, List.length_nil,
    velocityPointAt_completed, rowAt_dor, rowAt_bugs]
  decide

theorem synthesize_kpis_true (tn : String) (t : ℤ) :
    (synthesize tn true t).kpis =
      [KPI.mk "Velocity" (172/5) (some 1.2) (some "Average story points completed per sprint in the selected range."),
       KPI.mk "Throughput" 10 (some (-0.5)) (some "Number of items completed per sprint in the selected range."),
       KPI.mk "Commitment completion %" (873/10) (some 2.1) (some "Completed points divided by points committed at sprint start."),
       KPI.mk "Rollover rate %" (127/10) (some (-1.4)) (some "Rolled-over points divided by committed points."),
       KPI.mk "DoR compliance %" (422/5) (some 0.8) (some "Percentage of items that met Definition of Ready before sprint start."),
       KPI.mk "Bug ratio" (67/100) (some (-0.1)) (some "Number of bugs divided by number of stories completed.")] := by
  simp only [synthesize, basePoints_true, velocityGen_expand, rowsGen_expand,
    List.map_cons, List.map_nil, List.sum_cons, List.sum_nil, List.length_cons, List.length_nil,
    velocityPointAt_completed, rowAt_dor, rowAt_bugs]
  decide

theorem rowsRev_expand (b : ℚ) (t : ℤ) :
    (rowsGen b t).reverse = [rowAt b t 7, rowAt b t 6, rowAt b t 5, rowAt b t 4,
      rowAt b t 3, rowAt b t 2, rowAt b t 1, rowAt b t 0] := rfl

/-! ### Claims -/

/-- C1: the spec claims every series is returned with the record labelled
`Sprint 8` first and `Sprint 1` last (descending sprint index).  The code
labels the oldest generated record `Sprint 8` (`idx = sprint_count - i`)
and then reverses each series, so every series actually starts with the
record labelled `Sprint 1` and ends with `Sprint 8` — ascending label
order, contradicting both the claim and the source comment "Sort by
sprint name numeric part descending (latest first)".  Each series does
contain exactly 8 records.  This theorem evaluates the endpoint on a
valid input (the FastAPI defaults, `today = 0`). -/
theorem C1_series_order_divergence :
    (team_dashboard "team-1" "Alpha Team" "By sprint" false ["Stories", "Bugs", "Tasks", "Epics"] 0).map
        (fun r => (r.velocity.map (fun v => v.key),
                   r.commitment_vs_completion.map (fun c => c.sprint),
                   r.rollover_trend.map (fun p => p.sprint),
                   r.sprint_rows.map (fun row => row.sprint))) =
      some (["Sprint 1", "Sprint 2", "Sprint 3", "Sprint 4", "Sprint 5", "Sprint 6", "Sprint 7", "Sprint 8"],
            ["Sprint 1", "Sprint 2", "Sprint 3", "Sprint 4", "Sprint 5", "Sprint 6", "Sprint 7", "Sprint 8"],
            ["Sprint 1", "Sprint 2", "Sprint 3", "Sprint 4", "Sprint 5", "Sprint 6", "Sprint 7", "Sprint 8"],
            ["Sprint 1", "Sprint 2", "Sprint 3", "Sprint 4", "Sprint 5", "Sprint 6", "Sprint 7", "Sprint 8"]) := by
  decide

/-- C2 (counterexample): at the concrete valid input `today = 0`, for both
values of `include_done_only`, every generated `dor_compliance_percent`
is at most 100 — refuting the claim that it exceeds 100 for some sprint
index. -/
theorem C2_counterexample :
    (((rowsGen (basePoints false) 0).map (fun row => row.dor_compliance_percent)).all
        (fun q => decide (q ≤ 100)) = true) ∧
    (((rowsGen (basePoints true) 0).map (fun row => row.dor_compliance_percent)).all
        (fun q => decide (q ≤ 100)) = true) := by
  decide

/-- C2 (amended): `dor_compliance_percent` is computed as
`round(80 + (i%5)*3 - (i%2), 1)` (output order reverses the generation
offsets) and is not clamped, but it never exceeds 100: for every valid
input its maximum over the sprint records is 92. -/
theorem C2_dor_formula_and_bound (tid tn g : String) (d : Bool) (it : List String) (t : ℤ)
    (r : TeamDashboardResponse) (h : team_dashboard tid tn g d it t = some r) :
    r.sprint_rows.map (fun row => row.dor_compliance_percent) =
      (List.range sprint_count).reverse.map
        (fun i => pyRound (80 + ((i % 5 : ℕ) : ℚ) * 3 - ((i % 2 : ℕ) : ℚ)) 1) ∧
    92 ∈ r.sprint_rows.map (fun row => row.dor_compliance_percent) ∧
    ∀ row ∈ r.sprint_rows, row.dor_compliance_percent ≤ 92 := by
  rw [team_dashboard_eq h, synthesize_rows, rowsRev_expand]
  refine ⟨?_, ?_, ?_⟩
  · cases d <;> simp only [List.map_cons, List.map_nil, rowAt_dor] <;> decide
  · cases d <;> simp only [List.map_cons, List.map_nil, rowAt_dor] <;> decide
  · intro row hrow
    cases d <;>
      simp only [basePoints_false, basePoints_true, List.mem_cons, List.not_mem_nil, or_false] at hrow <;>
      rcases hrow with rfl | rfl | rfl | rfl | rfl | rfl | rfl | rfl <;>
      simp only [rowAt_dor] <;> decide

/-- C2 witness: the amended claim instantiated at the default valid input,
with the bound checked on the record generated at offset 4. -/
theorem C2_dor_formula_and_bound_witness :
    ((synthesize "Alpha Team" false 0).sprint_rows.map (fun row => row.dor_compliance_percent) =
      (List.range sprint_count).reverse.map
        (fun i => pyRound (80 + ((i % 5 : ℕ) : ℚ) * 3 - ((i % 2 : ℕ) : ℚ)) 1)) ∧
    92 ∈ (synthesize "Alpha Team" false 0).sprint_rows.map (fun row => row.dor_compliance_percent) ∧
    (rowAt 35 0 4).dor_compliance_percent ≤ 92 :=
  ⟨(C2_dor_formula_and_bound "team-1" "Alpha Team" "By sprint" false ["Stories", "Bugs", "Tasks", "Epics"] 0
      (synthesize "Alpha Team" false 0) rfl).1,
   (C2_dor_formula_and_bound "team-1" "Alpha Team" "By sprint" false ["Stories", "Bugs", "Tasks", "Epics"] 0
      (synthesize "Alpha Team" false 0) rfl).2.1,
   (C2_dor_formula_and_bound "team-1" "Alpha Team" "By sprint" false ["Stories", "Bugs", "Tasks", "Epics"] 0
      (synthesize "Alpha Team" false 0) rfl).2.2 (rowAt 35 0 4) (by decide)⟩

/-- C3: in every sprint record of every valid response, `rollover_points`
is `max(0, committed - completed)` rounded to one decimal, and
`completion_percent` is `round(100 * completed/committed, 1)` (0 when
`committed` is 0). -/
theorem C3_rollover_and_percent (tid tn g : String) (d : Bool) (it : List String) (t : ℤ)
    (r : TeamDashboardResponse) (h : team_dashboard tid tn g d it t = some r) :
    ∀ row ∈ r.sprint_rows,
      row.rollover_points = pyRound (max 0 (row.committed - row.completed)) 1 ∧
      row.completion_percent =
        (if row.committed = 0 then 0 else pyRound (100 * (row.completed / row.committed)) 1) := by
  rw [team_dashboard_eq h, synthesize_rows, rowsRev_expand]
  intro row hrow
  cases d <;>
    simp only [basePoints_false, basePoints_true, List.mem_cons, List.not_mem_nil, or_false] at hrow <;>
    rcases hrow with rfl | rfl | rfl | rfl | rfl | rfl | rfl | rfl <;>
    simp only [rowAt_rollover_points, rowAt_committed, rowAt_completed, rowAt_completion_percent] <;>
    decide

/-- C3 witness: the record generated at offset 3 of the default valid input. -/
theorem C3_rollover_and_percent_witness :
    (rowAt 35 0 3).rollover_points = pyRound (max 0 ((rowAt 35 0 3).committed - (rowAt 35 0 3).completed)) 1 ∧
    (rowAt 35 0 3).completion_percent =
      (if (rowAt 35 0 3).committed = 0 then 0
       else pyRound (100 * ((rowAt 35 0 3).completed / (rowAt 35 0 3).committed)) 1) :=
  C3_rollover_and_percent "team-1" "Alpha Team" "By sprint" false ["Stories", "Bugs", "Tasks", "Epics"] 0
    (synthesize "Alpha Team" false 0) rfl (rowAt 35 0 3) (by decide)

/-- C4: in every sprint record of every valid response,
`0 ≤ completed ≤ committed + 3`. -/
theorem C4_completed_bounds (tid tn g : String) (d : Bool) (it : List String) (t : ℤ)
    (r : TeamDashboardResponse) (h : team_dashboard tid tn g d it t = some r) :
    ∀ row ∈ r.sprint_rows, 0 ≤ row.completed ∧ row.completed ≤ row.committed + 3 := by
  rw [team_dashboard_eq h, synthesize_rows, rowsRev_expand]
  intro row hrow
  cases d <;>
    simp only [basePoints_false, basePoints_true, List.mem_cons, List.not_mem_nil, or_false] at hrow <;>
    rcases hrow with rfl | rfl | rfl | rfl | rfl | rfl | rfl | rfl <;>
    simp only [rowAt_committed, rowAt_completed] <;> decide

/-- C4 witness: the record generated at offset 1 of the default valid input. -/
theorem C4_completed_bounds_witness :
    0 ≤ (rowAt 35 0 1).completed ∧ (rowAt 35 0 1).completed ≤ (rowAt 35 0 1).committed + 3 :=
  C4_completed_bounds "team-1" "Alpha Team" "By sprint" false ["Stories", "Bugs", "Tasks", "Epics"] 0
    (synthesize "Alpha Team" false 0) rfl (rowAt 35 0 1) (by decide)

/-- C5: in every valid response, the KPI labelled `Commitment completion %`
has value `round(sum(completed) / sum(committed) * 100, 1)`, the sums
ranging over the 8 sprint records of the response. -/
theorem C5_commitment_completion_kpi (tid tn g : String) (d : Bool) (it : List String) (t : ℤ)
    (r : TeamDashboardResponse) (h : team_dashboard tid tn g d it t = some r) :
    ∀ k ∈ r.kpis, k.label = "Commitment completion %" →
      k.value = pyRound ((r.sprint_rows.map (fun row => row.completed)).sum /
        (r.sprint_rows.map (fun row => row.committed)).sum * 100) 1 := by
  rw [team_dashboard_eq h, synthesize_rows, rowsRev_expand]
  cases d
  · rw [synthesize_kpis_false]
    intro k hk
    simp only [List.mem_cons, List.not_mem_nil, or_false] at hk
    rcases hk with rfl | rfl | rfl | rfl | rfl | rfl <;> intro hlab <;>
      first
        | exact absurd hlab (by decide)
        | simp only [basePoints_false, List.map_cons, List.map_nil, List.sum_cons, List.sum_nil,
            rowAt_completed, rowAt_committed] <;> decide
  · rw [synthesize_kpis_true]
    intro k hk
    simp only [List.mem_cons, List.not_mem_nil, or_false] at hk
    rcases hk with rfl | rfl | rfl | rfl | rfl | rfl <;> intro hlab <;>
      first
        | exact absurd hlab (by decide)
        | simp only [basePoints_true, List.map_cons, List.map_nil, List.sum_cons, List.sum_nil,
            rowAt_completed, rowAt_committed] <;> decide

/-- C5 witness: the `Commitment completion %` KPI of the default valid input. -/
theorem C5_commitment_completion_kpi_witness :
    (KPI.mk "Commitment completion %" (887/10) (some 2.1)
        (some "Completed points divided by points committed at sprint start.")).value =
      pyRound (((synthesize "Alpha Team" false 0).sprint_rows.map (fun row => row.completed)).sum /
        ((synthesize "Alpha Team" false 0).sprint_rows.map (fun row => row.committed)).sum * 100) 1 :=
  C5_commitment_completion_kpi "team-1" "Alpha Team" "By sprint" false
    ["Stories", "Bugs", "Tasks", "Epics"] 0 (synthesize "Alpha Team" false 0) rfl
    (KPI.mk "Commitment completion %" (887/10) (some 2.1)
      (some "Completed points divided by points committed at sprint start.")) (by decide) (by decide)

/-- C6: the response does not depend on `team_id`, `grouping` (among the
three accepted labels) or `item_types`: two calls differing only in those
parameters coincide, and `team_name` is echoed verbatim. -/
theorem C6_parameter_independence (tid1 tid2 tn g1 g2 : String) (d : Bool)
    (it1 it2 : List String) (t : ℤ)
    (h1 : groupingValid g1 = true) (h2 : groupingValid g2 = true) :
    team_dashboard tid1 tn g1 d it1 t = team_dashboard tid2 tn g2 d it2 t ∧
    (team_dashboard tid1 tn g1 d it1 t).map (fun r => r.team_name) = some tn := by
  unfold team_dashboard
  rw [h1, h2]
  exact ⟨rfl, by simp [synthesize_team_name]⟩

/-- C6 witness: two concrete calls differing in `team_id`, `grouping` and
`item_types` produce the same response, echoing the team name. -/
theorem C6_parameter_independence_witness :
    team_dashboard "team-1" "Alpha Team" "By sprint" false ["Stories", "Bugs", "Tasks", "Epics"] 0 =
      team_dashboard "team-2" "Alpha Team" "By month" false [] 0 ∧
    (team_dashboard "team-1" "Alpha Team" "By sprint" false ["Stories", "Bugs", "Tasks", "Epics"] 0).map
      (fun r => r.team_name) = some "Alpha Team" :=
  C6_parameter_independence "team-1" "team-2" "Alpha Team" "By sprint" "By month" false
    ["Stories", "Bugs", "Tasks", "Epics"] [] 0 rfl rfl

/-- C7: in every valid response, `scope_change` is the fixed constant
triple `(3.2, 1.4, 6.5)`, independent of the sprint records and of all
input parameters. -/
theorem C7_scope_change_constant (tid tn g : String) (d : Bool) (it : List String) (t : ℤ)
    (r : TeamDashboardResponse) (h : team_dashboard tid tn g d it t = some r) :
    r.scope_change = ScopeSummary.mk 3.2 1.4 6.5 := by
  rw [team_dashboard_eq h]
  cases d <;> rfl

/-- C7 witness: the default valid input. -/
theorem C7_scope_change_constant_witness :
    (synthesize "Alpha Team" false 0).scope_change = ScopeSummary.mk 3.2 1.4 6.5 :=
  C7_scope_change_constant "team-1" "Alpha Team" "By sprint" false
    ["Stories", "Bugs", "Tasks", "Epics"] 0 (synthesize "Alpha Team" false 0) rfl

/-- C8: with `include_done_only = false`, the record generated at offset 3
has `committed = 40`, `completed = 30`, `rollover = 10.0`,
`completion_percent = 75.0`, and the record at offset 0 has
`committed = 40`, `completed = 40`, `rollover = 0.0`,
`completion_percent = 100.0` (for every reference date). -/
theorem C8_worked_examples (t : ℤ) :
    ((rowsGen (basePoints false) t)[3]?).map
        (fun row => (row.committed, row.completed, row.rollover_points, row.completion_percent)) =
      some (40, 30, 10, 75) ∧
    ((rowsGen (basePoints false) t)[0]?).map
        (fun row => (row.committed, row.completed, row.rollover_points, row.completion_percent)) =
      some (40, 40, 0, 100) := by
  refine ⟨?_, ?_⟩ <;>
    simp only [rowsGen_expand, basePoints_false, List.getElem?_cons_zero, List.getElem?_cons_succ,
      Option.map_some', rowAt_committed, rowAt_completed, rowAt_rollover_points,
      rowAt_completion_percent] <;>
    decide

/-- C9: in every sprint record of every valid response, `completed` never
exceeds `committed` (strictly tighter than the `committed + 3` bound of
C4); consequently `rollover_points` equals `committed - completed`
exactly and `completion_percent` is at most 100. -/
theorem C9_completed_le_committed (tid tn g : String) (d : Bool) (it : List String) (t : ℤ)
    (r : TeamDashboardResponse) (h : team_dashboard tid tn g d it t = some r) :
    ∀ row ∈ r.sprint_rows,
      row.completed ≤ row.committed ∧
      row.rollover_points = row.committed - row.completed ∧
      row.completion_percent ≤ 100 := by
  rw [team_dashboard_eq h, synthesize_rows, rowsRev_expand]
  intro row hrow
  cases d <;>
    simp only [basePoints_false, basePoints_true, List.mem_cons, List.not_mem_nil, or_false] at hrow <;>
    rcases hrow with rfl | rfl | rfl | rfl | rfl | rfl | rfl | rfl <;>
    simp only [rowAt_committed, rowAt_completed, rowAt_rollover_points,
      rowAt_completion_percent] <;> decide

/-- C9 witness: the record generated at offset 6 of the default valid input. -/
theorem C9_completed_le_committed_witness :
    (rowAt 35 0 6).completed ≤ (rowAt 35 0 6).committed ∧
    (rowAt 35 0 6).rollover_points = (rowAt 35 0 6).committed - (rowAt 35 0 6).completed ∧
    (rowAt 35 0 6).completion_percent ≤ 100 :=
  C9_completed_le_committed "team-1" "Alpha Team" "By sprint" false
    ["Stories", "Bugs", "Tasks", "Epics"] 0 (synthesize "Alpha Team" false 0) rfl
    (rowAt 35 0 6) (by decide)

/-- C10: in every valid response, the `Throughput` KPI value is exactly 10
and the `Bug ratio` KPI value is exactly 0.67, independent of all input
parameters including `include_done_only`. -/
theorem C10_fixed_kpis (tid tn g : String) (d : Bool) (it : List String) (t : ℤ)
    (r : TeamDashboardResponse) (h : team_dashboard tid tn g d it t = some r) :
    (∀ k ∈ r.kpis, k.label = "Throughput" → k.value = 10) ∧
    (∀ k ∈ r.kpis, k.label = "Bug ratio" → k.value = (0.67 : ℚ)) := by
  rw [team_dashboard_eq h]
  cases d
  · rw [synthesize_kpis_false]
    refine ⟨?_, ?_⟩ <;> intro k hk <;>
      simp only [List.mem_cons, List.not_mem_nil, or_false] at hk <;>
      rcases hk with rfl | rfl | rfl | rfl | rfl | rfl <;> intro hlab <;>
      first
        | exact absurd hlab (by decide)
        | decide
  · rw [synthesize_kpis_true]
    refine ⟨?_, ?_⟩ <;> intro k hk <;>
      simp only [List.mem_cons, List.not_mem_nil, or_false] at hk <;>
      rcases hk with rfl | rfl | rfl | rfl | rfl | rfl <;> intro hlab <;>
      first
        | exact absurd hlab (by decide)
        | decide

/-- C10 witness: the `Throughput` and `Bug ratio` KPIs of the default
valid input. -/
theorem C10_fixed_kpis_witness :
    (KPI.mk "Throughput" 10 (some (-0.5))
        (some "Number of items completed per sprint in the selected range.")).value = 10 ∧
    (KPI.mk "Bug ratio" (67/100) (some (-0.1))
        (some "Number of bugs divided by number of stories completed.")).value = (0.67 : ℚ) :=
  ⟨(C10_fixed_kpis "team-1" "Alpha Team" "By sprint" false
      ["Stories", "Bugs", "Tasks", "Epics"] 0 (synthesize "Alpha Team" false 0) rfl).1
      (KPI.mk "Throughput" 10 (some (-0.5))
        (some "Number of items completed per sprint in the selected range.")) (by decide) (by decide),
   (C10_fixed_kpis "team-1" "Alpha Team" "By sprint" false
      ["Stories", "Bugs", "Tasks", "Epics"] 0 (synthesize "Alpha Team" false 0) rfl).2
      (KPI.mk "Bug ratio" (67/100) (some (-0.1))
        (some "Number of bugs divided by number of stories completed.")) (by decide) (by decide)⟩
